import Mathlib

/-!
Verification of the `win_partitions` repository (Rust): a shallow embedding
of `src/win_api.rs` and `src/windows_partitions.rs`.

Native Windows calls (`GetLogicalDrives`, `GetDriveTypeW`,
`GetDiskFreeSpaceExW`, `GetVolumeInformationW`) are modelled by an
environment `NativeEnv` supplying their raw answers; the repository's
functions are translated on top of it.  Rust `String` is modelled as
`List Char`, `Vec<u16>` as `List Nat`, `std::io::Error` by the only part
the code inspects, `raw_os_error()`, i.e. an `Option Nat`.
A Rust `panic!` (reachable from `DriveType::from` on an invalid code) is
modelled by the `RunResult.panicked` outcome.
-/

/-- From `vec_u16_to_string` (win_api.rs:12-21): the loop computes the index
of the first zero element (or the length when there is none) and slices
`vec[0..index]`; that slice is exactly the prefix of nonzero elements. -/
def prefix_before_null : List Nat → List Nat
  | [] => []
  | u :: rest => if u = 0 then [] else u :: prefix_before_null rest

/-- Combining a UTF-16 surrogate pair into the coded scalar value. -/
def utf16_combine (hi lo : Nat) : Char :=
  Char.ofNat (0x10000 + (hi - 0xD800) * 0x400 + (lo - 0xDC00))

/-- Model of Rust `String::from_utf16_lossy`: decode UTF-16 code units,
pairing high/low surrogates and emitting U+FFFD for unpaired surrogates. -/
def from_utf16_lossy : List Nat → List Char
  | [] => []
  | u :: rest =>
    if u < 0xD800 ∨ 0xDFFF < u then
      Char.ofNat u :: from_utf16_lossy rest
    else if u ≤ 0xDBFF then
      match rest with
      | [] => [Char.ofNat 0xFFFD]
      | lo :: rest2 =>
        if 0xDC00 ≤ lo ∧ lo ≤ 0xDFFF then
          utf16_combine u lo :: from_utf16_lossy rest2
        else
          Char.ofNat 0xFFFD :: from_utf16_lossy (lo :: rest2)
    else
      Char.ofNat 0xFFFD :: from_utf16_lossy rest

/-- `vec_u16_to_string` (win_api.rs:12-21): truncate at the first null and
decode the preceding code units lossily. -/
def vec_u16_to_string (vec : List Nat) : List Char :=
  from_utf16_lossy (prefix_before_null vec)

/-- `DriveType` (win_api.rs:24-40). -/
inductive DriveType where
  | DriveUnknown
  | DriveNoRootDir
  | DriveRemovable
  | DriveFixed
  | DriveRemote
  | DriveCDRom
  | DriveRamDisk
deriving DecidableEq, Repr

/-- `impl From<u32> for DriveType` (win_api.rs:42-57); the `_` arm executes
`panic!("Invalid Drive Type")`, modelled as `none`. -/
def DriveType.from? (index : Nat) : Option DriveType :=
  match index with
  | 0 => some DriveType.DriveUnknown
  | 1 => some DriveType.DriveNoRootDir
  | 2 => some DriveType.DriveRemovable
  | 3 => some DriveType.DriveFixed
  | 4 => some DriveType.DriveRemote
  | 5 => some DriveType.DriveCDRom
  | 6 => some DriveType.DriveRamDisk
  | _ => none

/-- `std::io::Error`, modelled by the only observation the repository makes
of it: `raw_os_error()`.  Errors built by `Error::last_os_error()` carry
`some code`; a general `io::Error` may carry `none`. -/
structure OsError where
  rawCode : Option Nat
deriving DecidableEq, Repr

/-- The raw answers of the four native Windows calls.  `diskFreeSpace` and
`volumeInformation` yield either their out-parameters or the `GetLastError`
code observed on failure; `volumeInformation` receives the two buffer
capacities the caller passes and yields the two filled `u16` buffers plus
the serial number, max component length and flags. -/
structure NativeEnv where
  logicalDrives : Nat
  logicalDrivesError : Nat
  driveTypeCode : Char → Nat
  diskFreeSpace : Char → Except Nat (Nat × Nat × Nat)
  volumeInformation : Char → Nat → Nat → Except Nat (List Nat × List Nat × Nat × Nat × Nat)

/-- The loop of `get_logical_drive` (win_api.rs:149-158): `mask` starts at 1,
`index` runs from 1 to 26 (`remaining` counts the iterations left); when
`mask & bitmask == mask` the letter `char(index + 64)` is pushed, then
`mask` is shifted left. -/
def collect_letters (bitmask : Nat) : Nat → Nat → Nat → List Char
  | _, _, 0 => []
  | mask, index, r + 1 =>
    (if mask &&& bitmask = mask then [Char.ofNat (index + 64)] else []) ++
      collect_letters bitmask (mask <<< 1) (index + 1) r

/-- The letter list produced from a nonzero bitmask. -/
def logical_letters (bitmask : Nat) : List Char :=
  collect_letters bitmask 1 1 26

/-- `get_logical_drive` (win_api.rs:144-162): a zero bitmask yields
`Error::last_os_error()`, otherwise the decoded letters. -/
def get_logical_drive (env : NativeEnv) : Except OsError (List Char) :=
  if env.logicalDrives = 0 then
    Except.error ⟨some env.logicalDrivesError⟩
  else
    Except.ok (logical_letters env.logicalDrives)

/-- `get_drive_type` (win_api.rs:104-114): the native code converted through
`DriveType::from`; `none` is the `panic!` on an out-of-range code. -/
def get_drive_type (env : NativeEnv) (letter : Char) : Option DriveType :=
  DriveType.from? (env.driveTypeCode letter)

/-- `get_disk_free_space` (win_api.rs:120-140): on native failure the error
is `Error::last_os_error()`, hence always carries `some code`. -/
def get_disk_free_space (env : NativeEnv) (letter : Char) :
    Except OsError (Nat × Nat × Nat) :=
  match env.diskFreeSpace letter with
  | Except.ok v => Except.ok v
  | Except.error code => Except.error ⟨some code⟩

/-- `get_volume_information` (win_api.rs:63-98): the volume-name buffer is
`Vec::with_capacity(64)` resized to 64 zeros and the file-system-name buffer
has 255 elements; the native call receives `capacity()`, i.e. 64 and 255,
and on success both buffers are decoded with `vec_u16_to_string`. -/
def get_volume_information (env : NativeEnv) (letter : Char) :
    Except OsError (List Char × List Char × Nat × Nat × Nat) :=
  match env.volumeInformation letter 64 255 with
  | Except.ok (v, f, serial, maxlen, flags) =>
      Except.ok (vec_u16_to_string v, vec_u16_to_string f, serial, maxlen, flags)
  | Except.error code => Except.error ⟨some code⟩

/-- Modelled from the spec: the same operation passing a 32-character
volume-name buffer, as §4.1 of the spec words it ("two fixed-capacity text
buffers (32 characters / 255 characters)"); used only to compare against
the source's `get_volume_information`. -/
def get_volume_information_spec (env : NativeEnv) (letter : Char) :
    Except OsError (List Char × List Char × Nat × Nat × Nat) :=
  match env.volumeInformation letter 32 255 with
  | Except.ok (v, f, serial, maxlen, flags) =>
      Except.ok (vec_u16_to_string v, vec_u16_to_string f, serial, maxlen, flags)
  | Except.error code => Except.error ⟨some code⟩

/-- `WindowsPartition` (windows_partitions.rs:7-23). -/
structure WindowsPartition where
  letter : Char
  ready : Bool
  name : List Char
  size : Nat
  free_space : Nat
  file_system_name : List Char
  drive_type : DriveType
deriving DecidableEq, Repr

/-- Outcome of running `get_partitions`: a Rust `panic!`, an early
`return Err(err)`, or `Ok(result)`. -/
inductive RunResult (α : Type) where
  | panicked
  | failed (e : OsError)
  | succeeded (a : α)
deriving DecidableEq, Repr

/-- The `match get_disk_free_space(...)` arm (windows_partitions.rs:37-50):
success records `(total, free)` from components 1 and 2 of the triple;
an error with `raw_os_error() == Some(21)` clears `ready` and keeps the
zero sizes; any other error is returned from `get_partitions`. -/
def free_space_step (r : Except OsError (Nat × Nat × Nat)) :
    Except OsError (Bool × Nat × Nat) :=
  match r with
  | Except.ok v => Except.ok (true, v.2.1, v.2.2)
  | Except.error e =>
      if e.rawCode = some 21 then Except.ok (false, 0, 0) else Except.error e

/-- The `match get_volume_information(...)` arm (windows_partitions.rs:51-64):
success records `(name, file_system_name)` from components 0 and 1; an error
with `raw_os_error() == Some(21)` clears `ready` and keeps the empty
strings; any other error is returned from `get_partitions`. -/
def volume_step (r : Except OsError (List Char × List Char × Nat × Nat × Nat)) :
    Except OsError (Bool × List Char × List Char) :=
  match r with
  | Except.ok v => Except.ok (true, v.1, v.2.1)
  | Except.error e =>
      if e.rawCode = some 21 then Except.ok (false, [], []) else Except.error e

/-- Prepend one partition record to the result of the remaining iterations,
propagating a panic or an early error return. -/
def run_cons (p : WindowsPartition) :
    RunResult (List WindowsPartition) → RunResult (List WindowsPartition)
  | RunResult.panicked => RunResult.panicked
  | RunResult.failed e => RunResult.failed e
  | RunResult.succeeded ps => RunResult.succeeded (p :: ps)

/-- The `for letter in drives` loop of `get_partitions`
(windows_partitions.rs:29-74), abstracted over the three per-letter queries
it invokes.  `ready` starts `true`; either code-21 branch sets it `false`
(hence the final value `ready1 && ready2`); records accumulate in letter
order and an early `return Err` discards them. -/
def partitions_loop (dt : Char → Option DriveType)
    (fs : Char → Except OsError (Nat × Nat × Nat))
    (vi : Char → Except OsError (List Char × List Char × Nat × Nat × Nat)) :
    List Char → RunResult (List WindowsPartition)
  | [] => RunResult.succeeded []
  | letter :: rest =>
    match dt letter with
    | none => RunResult.panicked
    | some drive_type =>
      match free_space_step (fs letter) with
      | Except.error e => RunResult.failed e
      | Except.ok (ready1, total_size, free_space) =>
        match volume_step (vi letter) with
        | Except.error e => RunResult.failed e
        | Except.ok (ready2, name, file_system_name) =>
          run_cons
            ⟨letter, ready1 && ready2, name, total_size, free_space,
              file_system_name, drive_type⟩
            (partitions_loop dt fs vi rest)

/-- `get_partitions` (windows_partitions.rs:26-77): list the logical drives
(propagating a failure), then run the per-letter loop. -/
def get_partitions (env : NativeEnv) : RunResult (List WindowsPartition) :=
  match get_logical_drive env with
  | Except.error e => RunResult.failed e
  | Except.ok drives =>
      partitions_loop (get_drive_type env) (get_disk_free_space env)
        (get_volume_information env) drives

/-! ## Concrete environments and per-letter query functions used by the
claim witnesses and counterexamples, and the predicates the claim
statements use. -/

/-- An environment whose `GetLogicalDrives` call reports total failure with
last error 7. -/
def envZero : NativeEnv where
  logicalDrives := 0
  logicalDrivesError := 7
  driveTypeCode := fun _ => 3
  diskFreeSpace := fun _ => Except.ok (0, 0, 0)
  volumeInformation := fun _ _ _ => Except.ok ([], [], 0, 0, 0)

/-- An environment with a single ready NTFS drive `A:`. -/
def envA : NativeEnv where
  logicalDrives := 1
  logicalDrivesError := 0
  driveTypeCode := fun _ => 3
  diskFreeSpace := fun _ => Except.ok (50, 100, 40)
  volumeInformation := fun _ _ _ =>
    Except.ok ([68, 0], [78, 84, 70, 83, 0], 9, 255, 0)

/-- An environment whose drive bitmask has only bit 26 set. -/
def envHigh : NativeEnv where
  logicalDrives := 2 ^ 26
  logicalDrivesError := 0
  driveTypeCode := fun _ => 3
  diskFreeSpace := fun _ => Except.ok (0, 0, 0)
  volumeInformation := fun _ _ _ => Except.ok ([], [], 0, 0, 0)

/-- A per-letter query result the loop survives: either a success or the
tolerated code-21 error. -/
def nonfatal {α : Type} (r : Except OsError α) : Prop :=
  ∀ e, r = Except.error e → e.rawCode = some 21

/-- A letter whose three queries neither panic nor abort the enumeration. -/
def CleanLetter (dt : Char → Option DriveType)
    (fs : Char → Except OsError (Nat × Nat × Nat))
    (vi : Char → Except OsError (List Char × List Char × Nat × Nat × Nat))
    (x : Char) : Prop :=
  (dt x).isSome = true ∧ nonfatal (fs x) ∧ nonfatal (vi x)

/-- An environment with a clean drive `A:` and a drive `B:` whose free-space
query fails with code 5 (access denied). -/
def envW1 : NativeEnv where
  logicalDrives := 3
  logicalDrivesError := 0
  driveTypeCode := fun _ => 3
  diskFreeSpace := fun c =>
    if c = 'B' then Except.error 5 else Except.ok (50, 100, 40)
  volumeInformation := fun _ _ _ =>
    Except.ok ([68, 0], [78, 84, 70, 83, 0], 9, 255, 0)

/-- Per-letter queries for the C10 witness: every drive type is `Fixed` and
the free-space query fails with a codeless error. -/
def dtW : Char → Option DriveType := fun _ => some DriveType.DriveFixed

def fsNoCode : Char → Except OsError (Nat × Nat × Nat) :=
  fun _ => Except.error ⟨none⟩

def viW : Char → Except OsError (List Char × List Char × Nat × Nat × Nat) :=
  fun _ => Except.ok ([], [], 0, 0, 0)

/-- An environment for the C2 counterexample: `D:` is a CD-ROM whose
free-space query fails with code 21 but whose volume-information query
succeeds with volume name "X" and file-system name "NTFS". -/
def envC2 : NativeEnv where
  logicalDrives := 8
  logicalDrivesError := 0
  driveTypeCode := fun _ => 5
  diskFreeSpace := fun _ => Except.error 21
  volumeInformation := fun _ _ _ =>
    Except.ok ([88, 0], [78, 84, 70, 83, 0], 7, 255, 0)

/-- Per-letter queries for the C2 witness. -/
def dt2 : Char → Option DriveType := fun _ => some DriveType.DriveCDRom

def fs21 : Char → Except OsError (Nat × Nat × Nat) :=
  fun _ => Except.error ⟨some 21⟩

def viOkW : Char → Except OsError (List Char × List Char × Nat × Nat × Nat) :=
  fun _ => Except.ok (['X'], ['N', 'T', 'F', 'S'], 7, 255, 0)

/-- An environment for the C3 counterexample: `C:` answers the free-space
query with `(total, free) = (100, 40)` but fails the volume-information
query with code 21. -/
def envC3 : NativeEnv where
  logicalDrives := 4
  logicalDrivesError := 0
  driveTypeCode := fun _ => 3
  diskFreeSpace := fun _ => Except.ok (50, 100, 40)
  volumeInformation := fun _ _ _ => Except.error 21

/-- A spy environment whose native volume-information call records the two
buffer capacities it receives, encoded as `cap1 * 1000 + cap2` in the error
code. -/
def envSpy : NativeEnv where
  logicalDrives := 4
  logicalDrivesError := 0
  driveTypeCode := fun _ => 3
  diskFreeSpace := fun _ => Except.ok (0, 0, 0)
  volumeInformation := fun _ cap1 cap2 => Except.error (cap1 * 1000 + cap2)

/-- Like `envSpy` but answering success when the volume-name capacity is 32:
it agrees with `envSpy` at capacity 64 and differs at capacity 32. -/
def envSpy2 : NativeEnv where
  logicalDrives := 4
  logicalDrivesError := 0
  driveTypeCode := fun _ => 3
  diskFreeSpace := fun _ => Except.ok (0, 0, 0)
  volumeInformation := fun _ cap1 cap2 =>
    if cap1 = 32 then Except.ok ([], [], 0, 0, 0)
    else Except.error (cap1 * 1000 + cap2)

/-! ## Helper lemmas -/

/-- An `OsError` whose raw code is `some 21` is the literal code-21 error. -/
lemma osError_eq_21 (e : OsError) (h : e.rawCode = some 21) : e = ⟨some 21⟩ := by
  cases e
  exact congrArg OsError.mk h

/-- The loop's test `mask & bitmask == mask` at `mask = 2 ^ i` reads bit `i`. -/
lemma mask_and_eq (m i : Nat) : 2 ^ i &&& m = 2 ^ i ↔ m.testBit i = true := by
  rw [Nat.two_pow_and]
  rcases hb : m.testBit i
  · simp
    exact (Nat.two_pow_pos i).ne
  · simp

/-- Closed form of the `get_logical_drive` loop: starting at bit `i`, it
yields one letter per set bit among the next `r` bits. -/
lemma collect_letters_eq (m : Nat) : ∀ r i,
    collect_letters m (2 ^ i) (i + 1) r =
      (List.range' i r).filterMap
        (fun j => if m.testBit j then some (Char.ofNat (j + 65)) else none) := by
  intro r
  induction r with
  | zero => intro i; rfl
  | succ r ih =>
    intro i
    have hshift : (2 : Nat) ^ i <<< 1 = 2 ^ (i + 1) := by
      rw [Nat.shiftLeft_eq, Nat.pow_one, ← Nat.pow_succ]
    have h65 : i + 1 + 64 = i + 65 := by omega
    rw [List.range'_succ, List.filterMap_cons]
    show (if 2 ^ i &&& m = 2 ^ i then [Char.ofNat (i + 1 + 64)] else []) ++
        collect_letters m (2 ^ i <<< 1) (i + 1 + 1) r = _
    by_cases hb : m.testBit i = true
    · rw [if_pos ((mask_and_eq m i).mpr hb), hshift, ih (i + 1), h65, hb]
      rfl
    · rw [if_neg (fun hc => hb ((mask_and_eq m i).mp hc)), hshift, ih (i + 1),
        eq_false_of_ne_true hb]
      rfl

/-- Closed form of `logical_letters`: one letter per set bit among bits 0-25. -/
lemma logical_letters_eq (m : Nat) :
    logical_letters m =
      (List.range 26).filterMap
        (fun j => if m.testBit j then some (Char.ofNat (j + 65)) else none) := by
  have h := collect_letters_eq m 26 0
  simpa [logical_letters, List.range_eq_range'] using h

/-- Length of a guarded `filterMap` equals the count of passing elements. -/
lemma length_filterMap_if {α β : Type} (g : α → β) (p : α → Bool) :
    ∀ l : List α,
      (l.filterMap (fun a => if p a then some (g a) else none)).length =
        l.countP p := by
  intro l
  induction l with
  | nil => rfl
  | cons a l ih =>
    rw [List.filterMap_cons, List.countP_cons]
    by_cases hp : p a = true
    · simp [hp, ih]
    · simp [hp, ih]

/-- `Char.ofNat` is left inverse to `Char.toNat` below the surrogate range. -/
lemma char_toNat_ofNat {n : Nat} (h : n < 55296) : (Char.ofNat n).toNat = n := by
  rw [Char.ofNat, dif_pos (Or.inl h)]
  rfl

/-- The default arm of `DriveType::from` is reached by every code above 6. -/
lemma driveType_from_ge_7 (k : Nat) : DriveType.from? (k + 7) = none := rfl

/-! ## C5, C6, C7 -/

/-- C5: `get_logical_drive` fails with an `OsError` carrying the platform's
last error code exactly when the native bitmask is 0; for any nonzero
bitmask it succeeds (with the decoded letter list). -/
theorem c5_logical_drive_failure_iff (env : NativeEnv) :
    (env.logicalDrives = 0 →
      get_logical_drive env = Except.error ⟨some env.logicalDrivesError⟩) ∧
    (env.logicalDrives ≠ 0 →
      get_logical_drive env = Except.ok (logical_letters env.logicalDrives)) := by
  constructor
  · intro h
    simp [get_logical_drive, h]
  · intro h
    simp [get_logical_drive, h]

/-- Witness for C5 at a concrete failing environment. -/
theorem c5_logical_drive_failure_iff_witness :
    get_logical_drive envZero = Except.error ⟨some 7⟩ :=
  (c5_logical_drive_failure_iff envZero).1 rfl

/-- C6: every native drive-type code 0-6 converts to the corresponding named
variant, and every code above 6 reaches the `panic!` arm (modelled `none`)
instead of producing a value — in particular it does not default to
`DriveUnknown`. -/
theorem c6_drive_type_conversion :
    DriveType.from? 0 = some DriveType.DriveUnknown ∧
    DriveType.from? 1 = some DriveType.DriveNoRootDir ∧
    DriveType.from? 2 = some DriveType.DriveRemovable ∧
    DriveType.from? 3 = some DriveType.DriveFixed ∧
    DriveType.from? 4 = some DriveType.DriveRemote ∧
    DriveType.from? 5 = some DriveType.DriveCDRom ∧
    DriveType.from? 6 = some DriveType.DriveRamDisk ∧
    ∀ n : Nat, 6 < n → DriveType.from? n = none := by
  refine ⟨rfl, rfl, rfl, rfl, rfl, rfl, rfl, ?_⟩
  intro n h
  obtain ⟨k, hk⟩ := Nat.exists_eq_add_of_le h
  have : n = k + 7 := by omega
  rw [this]
  exact driveType_from_ge_7 k

/-- Witness for C6 at the concrete out-of-range code 7. -/
theorem c6_drive_type_conversion_witness : DriveType.from? 7 = none :=
  c6_drive_type_conversion.2.2.2.2.2.2.2 7 (by decide)

/-- `prefix_before_null` is the `takeWhile`-nonzero prefix. -/
lemma prefix_before_null_eq_takeWhile (vec : List Nat) :
    prefix_before_null vec = vec.takeWhile (fun u => u != 0) := by
  induction vec with
  | nil => rfl
  | cons u rest ih =>
    by_cases h : u = 0
    · simp [prefix_before_null, List.takeWhile_cons, h]
    · simp [prefix_before_null, List.takeWhile_cons, h, ih]

/-- C7: `vec_u16_to_string` truncates every buffer at its first null and
decodes the preceding prefix with the lossy UTF-16 decoder (total, hence
never failing); a null-padded "DATA" buffer decodes to "DATA", an all-zero
buffer decodes to the empty string, and an unpaired surrogate becomes
U+FFFD. -/
theorem c7_truncate_then_lossy_decode :
    (∀ vec : List Nat,
      vec_u16_to_string vec =
        from_utf16_lossy (vec.takeWhile (fun u => u != 0))) ∧
    vec_u16_to_string [68, 65, 84, 65, 0, 0, 0] = ['D', 'A', 'T', 'A'] ∧
    vec_u16_to_string [0, 0, 0, 0] = [] ∧
    vec_u16_to_string [55296, 65, 0] = [Char.ofNat 0xFFFD, 'A'] := by
  refine ⟨?_, by decide, by decide, by decide⟩
  intro vec
  rw [vec_u16_to_string, prefix_before_null_eq_takeWhile]

/-! ## C4 and C9 -/

/-- A successful run of the loop yields exactly one record per letter, in
the letters' order. -/
lemma loop_map_letter (dt : Char → Option DriveType)
    (fs : Char → Except OsError (Nat × Nat × Nat))
    (vi : Char → Except OsError (List Char × List Char × Nat × Nat × Nat)) :
    ∀ L ps, partitions_loop dt fs vi L = RunResult.succeeded ps →
      List.map (fun p => p.letter) ps = L := by
  intro L
  induction L with
  | nil =>
    intro ps h
    simp only [partitions_loop] at h
    injection h with h'
    subst h'
    rfl
  | cons x L ih =>
    intro ps h
    rcases hdt : dt x with _ | τ
    · simp only [partitions_loop, hdt] at h
      exact RunResult.noConfusion h
    · simp only [partitions_loop, hdt] at h
      rcases hfs : free_space_step (fs x) with e | ⟨r1, t, f⟩
      · simp only [hfs] at h
        exact RunResult.noConfusion h
      · simp only [hfs] at h
        rcases hvi : volume_step (vi x) with e | ⟨r2, nm, fsn⟩
        · simp only [hvi] at h
          exact RunResult.noConfusion h
        · simp only [hvi] at h
          rcases hrec : partitions_loop dt fs vi L with _ | e | ps0
          · simp only [hrec, run_cons] at h
            exact RunResult.noConfusion h
          · simp only [hrec, run_cons] at h
            exact RunResult.noConfusion h
          · simp only [hrec, run_cons] at h
            injection h with h'
            subst h'
            simp [ih ps0 hrec]

/-- C4: for every bitmask, `get_logical_drive`'s letter list has one letter
per set bit among the low 26 bits (so its length is the number of such set
bits), bit `n` corresponds to the letter `'A' + n`, the list is in strictly
ascending letter order, and a successful `get_partitions` returns exactly
one record per letter of that list, in the same order. -/
theorem c4_bitmask_letters (m : Nat) :
    (logical_letters m).length = (List.range 26).countP (fun n => m.testBit n) ∧
    (∀ n, n < 26 →
      (m.testBit n = true ↔ Char.ofNat (n + 65) ∈ logical_letters m)) ∧
    List.Pairwise (fun a b => a.toNat < b.toNat) (logical_letters m) ∧
    (∀ env ps, get_partitions env = RunResult.succeeded ps →
      List.map (fun p => p.letter) ps = logical_letters env.logicalDrives) := by
  refine ⟨?_, ?_, ?_, ?_⟩
  · rw [logical_letters_eq]
    exact length_filterMap_if (fun j => Char.ofNat (j + 65))
      (fun n => m.testBit n) (List.range 26)
  · intro n hn
    rw [logical_letters_eq]
    constructor
    · intro hbit
      exact List.mem_filterMap.mpr ⟨n, List.mem_range.mpr hn, by simp [hbit]⟩
    · intro hmem
      obtain ⟨j, hj, hfj⟩ := List.mem_filterMap.mp hmem
      by_cases hbj : m.testBit j = true
      · rw [if_pos hbj] at hfj
        injection hfj with hchar
        have hj26 : j < 26 := List.mem_range.mp hj
        have : j + 65 = n + 65 := by
          have h1 : (Char.ofNat (j + 65)).toNat = j + 65 :=
            char_toNat_ofNat (by omega)
          have h2 : (Char.ofNat (n + 65)).toNat = n + 65 :=
            char_toNat_ofNat (by omega)
          rw [← h1, ← h2, hchar]
        have : j = n := by omega
        rw [← this]
        exact hbj
      · rw [if_neg hbj] at hfj
        exact Option.noConfusion hfj
  · rw [logical_letters_eq]
    have hpair : List.Pairwise
        (fun a b => a ∈ List.range 26 ∧ b ∈ List.range 26 ∧ a < b)
        (List.range 26) :=
      List.Pairwise.and_mem.mp (List.pairwise_lt_range 26)
    refine List.Pairwise.filterMap _ ?_ hpair
    intro a a' ha b hb b' hb'
    obtain ⟨ha1, ha2, ha3⟩ := ha
    have ha26 : a < 26 := List.mem_range.mp ha1
    have ha26' : a' < 26 := List.mem_range.mp ha2
    by_cases hba : m.testBit a = true
    · by_cases hba' : m.testBit a' = true
      · rw [if_pos hba, Option.mem_def] at hb
        rw [if_pos hba', Option.mem_def] at hb'
        injection hb with hb
        injection hb' with hb'
        rw [← hb, ← hb', char_toNat_ofNat (by omega), char_toNat_ofNat (by omega)]
        omega
      · rw [if_neg hba', Option.mem_def] at hb'
        exact Option.noConfusion hb'
    · rw [if_neg hba, Option.mem_def] at hb
      exact Option.noConfusion hb
  · intro env ps h
    unfold get_partitions get_logical_drive at h
    by_cases hz : env.logicalDrives = 0
    · rw [if_pos hz] at h
      exact RunResult.noConfusion h
    · rw [if_neg hz] at h
      exact loop_map_letter _ _ _ _ ps h

/-- Witness for C4: bit 0 set yields the letter `A`, and `get_partitions`
on `envA` returns exactly the records for `logical_letters 1`. -/
theorem c4_bitmask_letters_witness :
    Char.ofNat 65 ∈ logical_letters 1 ∧
    List.map (fun p => p.letter)
        [(⟨'A', true, ['D'], 100, 40, ['N', 'T', 'F', 'S'],
          DriveType.DriveFixed⟩ : WindowsPartition)] =
      logical_letters envA.logicalDrives :=
  ⟨((c4_bitmask_letters 1).2.1 0 (by decide)).mp (by decide),
    (c4_bitmask_letters 1).2.2.2 envA
      [⟨'A', true, ['D'], 100, 40, ['N', 'T', 'F', 'S'],
        DriveType.DriveFixed⟩] (by decide)⟩

/-- C9: a nonzero bitmask whose set bits all lie above bit 25 makes
`get_logical_drive` succeed with the empty letter list, and `get_partitions`
succeed with the empty partition sequence. -/
theorem c9_high_bits_ignored (env : NativeEnv)
    (hnz : env.logicalDrives ≠ 0)
    (hhigh : ∀ n, n < 26 → env.logicalDrives.testBit n = false) :
    get_logical_drive env = Except.ok [] ∧
    get_partitions env = RunResult.succeeded [] := by
  have hl : logical_letters env.logicalDrives = [] := by
    rw [logical_letters_eq]
    rw [List.filterMap_eq_nil_iff]
    intro j hj
    rw [hhigh j (List.mem_range.mp hj)]
    rfl
  constructor
  · simp [get_logical_drive, hnz, hl]
  · simp [get_partitions, get_logical_drive, hnz, hl, partitions_loop]

/-- Witness for C9 at the concrete bitmask `2 ^ 26`. -/
theorem c9_high_bits_ignored_witness :
    get_logical_drive envHigh = Except.ok [] ∧
    get_partitions envHigh = RunResult.succeeded [] :=
  c9_high_bits_ignored envHigh (by decide)
    (fun n h => Nat.testBit_two_pow_of_ne (by omega))

/-! ## Loop machinery for C1, C2, C3, C10 -/

lemma free_space_step_ok (v : Nat × Nat × Nat) :
    free_space_step (Except.ok v) = Except.ok (true, v.2.1, v.2.2) := rfl

lemma free_space_step_21 :
    free_space_step (Except.error ⟨some 21⟩) = Except.ok (false, 0, 0) := rfl

lemma free_space_step_fatal (e : OsError) (h : e.rawCode ≠ some 21) :
    free_space_step (Except.error e) = Except.error e := by
  simp [free_space_step, h]

lemma volume_step_ok (v : List Char × List Char × Nat × Nat × Nat) :
    volume_step (Except.ok v) = Except.ok (true, v.1, v.2.1) := rfl

lemma volume_step_21 :
    volume_step (Except.error ⟨some 21⟩) = Except.ok (false, [], []) := rfl

lemma volume_step_fatal (e : OsError) (h : e.rawCode ≠ some 21) :
    volume_step (Except.error e) = Except.error e := by
  simp [volume_step, h]

lemma free_space_step_of_nonfatal {r : Except OsError (Nat × Nat × Nat)}
    (h : nonfatal r) : ∃ w, free_space_step r = Except.ok w := by
  rcases r with e | v
  · rw [osError_eq_21 e (h e rfl)]
    exact ⟨(false, 0, 0), rfl⟩
  · exact ⟨(true, v.2.1, v.2.2), rfl⟩

lemma volume_step_of_nonfatal
    {r : Except OsError (List Char × List Char × Nat × Nat × Nat)}
    (h : nonfatal r) : ∃ w, volume_step r = Except.ok w := by
  rcases r with e | v
  · rw [osError_eq_21 e (h e rfl)]
    exact ⟨(false, [], []), rfl⟩
  · exact ⟨(true, v.1, v.2.1), rfl⟩

/-- A `false` readiness flag out of `free_space_step` only arises from the
code-21 error (and then the sizes are the untouched zeros). -/
lemma free_space_step_false {r : Except OsError (Nat × Nat × Nat)} {t f : Nat}
    (h : free_space_step r = Except.ok (false, t, f)) :
    r = Except.error ⟨some 21⟩ := by
  rcases r with e | v
  · by_cases h21 : e.rawCode = some 21
    · rw [osError_eq_21 e h21]
    · rw [free_space_step_fatal e h21] at h
      exact Except.noConfusion h
  · rw [free_space_step_ok v] at h
    simp at h

/-- A `false` readiness flag out of `volume_step` only arises from the
code-21 error. -/
lemma volume_step_false
    {r : Except OsError (List Char × List Char × Nat × Nat × Nat)}
    {nm fsn : List Char}
    (h : volume_step r = Except.ok (false, nm, fsn)) :
    r = Except.error ⟨some 21⟩ := by
  rcases r with e | v
  · by_cases h21 : e.rawCode = some 21
    · rw [osError_eq_21 e h21]
    · rw [volume_step_fatal e h21] at h
      exact Except.noConfusion h
  · rw [volume_step_ok v] at h
    simp at h

/-- Processing a clean letter appends one record and continues. -/
lemma loop_cons_clean {dt : Char → Option DriveType}
    {fs : Char → Except OsError (Nat × Nat × Nat)}
    {vi : Char → Except OsError (List Char × List Char × Nat × Nat × Nat)}
    {x : Char} (L : List Char) (h : CleanLetter dt fs vi x) :
    ∃ p, partitions_loop dt fs vi (x :: L) =
      run_cons p (partitions_loop dt fs vi L) := by
  obtain ⟨h1, h2, h3⟩ := h
  obtain ⟨τ, hτ⟩ := Option.isSome_iff_exists.mp h1
  obtain ⟨⟨r1, t, f⟩, hw⟩ := free_space_step_of_nonfatal h2
  obtain ⟨⟨r2, nm, fsn⟩, hv⟩ := volume_step_of_nonfatal h3
  refine ⟨⟨x, r1 && r2, nm, t, f, fsn, τ⟩, ?_⟩
  simp only [partitions_loop, hτ, hw, hv]

/-- An early error return passes unchanged through a clean prefix: the
records already assembled for the prefix are discarded. -/
lemma loop_append_failed {dt : Char → Option DriveType}
    {fs : Char → Except OsError (Nat × Nat × Nat)}
    {vi : Char → Except OsError (List Char × List Char × Nat × Nat × Nat)}
    (L1 : List Char) {M : List Char} {e : OsError}
    (hclean : ∀ x ∈ L1, CleanLetter dt fs vi x)
    (hM : partitions_loop dt fs vi M = RunResult.failed e) :
    partitions_loop dt fs vi (L1 ++ M) = RunResult.failed e := by
  induction L1 with
  | nil => simpa using hM
  | cons x L1 ih =>
    obtain ⟨p, hp⟩ := loop_cons_clean (L1 ++ M) (hclean x (List.mem_cons_self x L1))
    rw [List.cons_append, hp,
      ih (fun y hy => hclean y (List.mem_cons_of_mem x hy))]
    rfl

/-- A fatal (non-21) free-space failure at the head letter aborts the loop
with that error. -/
lemma loop_fatal_fs {dt : Char → Option DriveType}
    {fs : Char → Except OsError (Nat × Nat × Nat)}
    {vi : Char → Except OsError (List Char × List Char × Nat × Nat × Nat)}
    (x : Char) (L : List Char) {τ : DriveType} {e : OsError}
    (hdt : dt x = some τ) (hfs : fs x = Except.error e)
    (h21 : e.rawCode ≠ some 21) :
    partitions_loop dt fs vi (x :: L) = RunResult.failed e := by
  simp only [partitions_loop, hdt, hfs, free_space_step_fatal e h21]

/-- A fatal (non-21) volume-information failure at the head letter aborts
the loop with that error. -/
lemma loop_fatal_vi {dt : Char → Option DriveType}
    {fs : Char → Except OsError (Nat × Nat × Nat)}
    {vi : Char → Except OsError (List Char × List Char × Nat × Nat × Nat)}
    (x : Char) (L : List Char) {τ : DriveType} {e : OsError}
    (hdt : dt x = some τ) (hfs : nonfatal (fs x))
    (hvi : vi x = Except.error e) (h21 : e.rawCode ≠ some 21) :
    partitions_loop dt fs vi (x :: L) = RunResult.failed e := by
  obtain ⟨⟨r1, t, f⟩, hw⟩ := free_space_step_of_nonfatal hfs
  simp only [partitions_loop, hdt, hw, hvi, volume_step_fatal e h21]

/-- With a nonzero bitmask, `get_partitions` is the loop over the decoded
letters. -/
lemma get_partitions_loop (env : NativeEnv) (hnz : env.logicalDrives ≠ 0) :
    get_partitions env =
      partitions_loop (get_drive_type env) (get_disk_free_space env)
        (get_volume_information env) (logical_letters env.logicalDrives) := by
  simp [get_partitions, get_logical_drive, hnz]

/-- With a zero bitmask, `get_partitions` propagates the bitmask error. -/
lemma get_partitions_zero (env : NativeEnv) (hz : env.logicalDrives = 0) :
    get_partitions env = RunResult.failed ⟨some env.logicalDrivesError⟩ := by
  simp [get_partitions, get_logical_drive, hz]

/-- Every record of a successful run is built from its own letter's three
query results, with `ready` the conjunction of both readiness flags. -/
lemma loop_succeeded_mem (dt : Char → Option DriveType)
    (fs : Char → Except OsError (Nat × Nat × Nat))
    (vi : Char → Except OsError (List Char × List Char × Nat × Nat × Nat)) :
    ∀ L ps, partitions_loop dt fs vi L = RunResult.succeeded ps →
      ∀ p ∈ ps, ∃ τ r1 r2,
        dt p.letter = some τ ∧ p.drive_type = τ ∧
        free_space_step (fs p.letter) = Except.ok (r1, p.size, p.free_space) ∧
        volume_step (vi p.letter) = Except.ok (r2, p.name, p.file_system_name) ∧
        p.ready = (r1 && r2) := by
  intro L
  induction L with
  | nil =>
    intro ps h p hp
    simp only [partitions_loop] at h
    injection h with h'
    subst h'
    exact absurd hp (List.not_mem_nil p)
  | cons x L ih =>
    intro ps h p hp
    rcases hdt : dt x with _ | τ
    · simp only [partitions_loop, hdt] at h
      exact RunResult.noConfusion h
    · simp only [partitions_loop, hdt] at h
      rcases hfs : free_space_step (fs x) with e | ⟨r1, t, f⟩
      · simp only [hfs] at h
        exact RunResult.noConfusion h
      · simp only [hfs] at h
        rcases hvi : volume_step (vi x) with e | ⟨r2, nm, fsn⟩
        · simp only [hvi] at h
          exact RunResult.noConfusion h
        · simp only [hvi] at h
          rcases hrec : partitions_loop dt fs vi L with _ | e | ps0
          · simp only [hrec, run_cons] at h
            exact RunResult.noConfusion h
          · simp only [hrec, run_cons] at h
            exact RunResult.noConfusion h
          · simp only [hrec, run_cons] at h
            injection h with h'
            subst h'
            rcases List.mem_cons.mp hp with rfl | hp'
            · exact ⟨τ, r1, r2, hdt, rfl, hfs, hvi, rfl⟩
            · exact ih ps0 hrec p hp'

/-! ## C1 -/

/-- C1: if, with all earlier letters clean, the free-space query or the
volume-information query for a letter fails with an error other than
code 21, `get_partitions` returns that error and no partial partition
sequence — the records already assembled for earlier letters are
discarded. -/
theorem c1_fatal_error_aborts (env : NativeEnv) (L1 : List Char) (d : Char)
    (L2 : List Char) (e : OsError)
    (hnz : env.logicalDrives ≠ 0)
    (hsplit : logical_letters env.logicalDrives = L1 ++ d :: L2)
    (hclean : ∀ x ∈ L1,
      CleanLetter (get_drive_type env) (get_disk_free_space env)
        (get_volume_information env) x)
    (hd : (get_drive_type env d).isSome = true)
    (hfail : get_disk_free_space env d = Except.error e ∨
      (nonfatal (get_disk_free_space env d) ∧
        get_volume_information env d = Except.error e))
    (h21 : e.rawCode ≠ some 21) :
    get_partitions env = RunResult.failed e := by
  obtain ⟨τ, hτ⟩ := Option.isSome_iff_exists.mp hd
  have hM : partitions_loop (get_drive_type env) (get_disk_free_space env)
      (get_volume_information env) (d :: L2) = RunResult.failed e := by
    rcases hfail with hf | ⟨hnf, hv⟩
    · exact loop_fatal_fs d L2 hτ hf h21
    · exact loop_fatal_vi d L2 hτ hnf hv h21
  have hall := loop_append_failed L1 hclean hM
  rw [← hsplit] at hall
  rw [get_partitions_loop env hnz]
  exact hall

/-- Witness for C1: on `envW1` the whole enumeration fails with code 5 and
the record already assembled for `A:` is discarded. -/
theorem c1_fatal_error_aborts_witness :
    get_partitions envW1 = RunResult.failed ⟨some 5⟩ :=
  c1_fatal_error_aborts envW1 ['A'] 'B' [] ⟨some 5⟩ (by decide) (by decide)
    (by
      intro x hx
      have hx' : x = 'A' := List.mem_singleton.mp hx
      subst hx'
      refine ⟨by decide, ?_, ?_⟩
      · intro e he
        have hok : get_disk_free_space envW1 'A' = Except.ok (50, 100, 40) :=
          rfl
        rw [hok] at he
        exact Except.noConfusion he
      · intro e he
        have hok : get_volume_information envW1 'A' =
            Except.ok (['D'], ['N', 'T', 'F', 'S'], 9, 255, 0) := rfl
        rw [hok] at he
        exact Except.noConfusion he)
    (by decide) (Or.inl rfl) (by decide)

/-! ## C10 -/

/-- C10: an error from a per-drive query that carries no raw OS code
(`raw_os_error()` is `None`) is treated as fatal: the loop aborts with that
error; the code-21 tolerance requires the raw code to be exactly
`Some(21)`. -/
theorem c10_no_raw_code_is_fatal (dt : Char → Option DriveType)
    (fs : Char → Except OsError (Nat × Nat × Nat))
    (vi : Char → Except OsError (List Char × List Char × Nat × Nat × Nat))
    (d : Char) (L2 : List Char) (τ : DriveType) (e : OsError)
    (hdt : dt d = some τ) (hnone : e.rawCode = none) :
    (fs d = Except.error e →
      partitions_loop dt fs vi (d :: L2) = RunResult.failed e) ∧
    (nonfatal (fs d) → vi d = Except.error e →
      partitions_loop dt fs vi (d :: L2) = RunResult.failed e) := by
  have h21 : e.rawCode ≠ some 21 := by
    rw [hnone]
    simp
  exact ⟨fun hf => loop_fatal_fs d L2 hdt hf h21,
    fun hnf hvi => loop_fatal_vi d L2 hdt hnf hvi h21⟩

/-- Witness for C10: a codeless free-space error at `C:` aborts the loop. -/
theorem c10_no_raw_code_is_fatal_witness :
    partitions_loop dtW fsNoCode viW ['C'] = RunResult.failed ⟨none⟩ :=
  (c10_no_raw_code_is_fatal dtW fsNoCode viW 'C' [] DriveType.DriveFixed
    ⟨none⟩ rfl rfl).1 rfl

/-! ## C2 -/

/-- Counterexample to C2 as stated: on `envC2` the free-space query for `D`
fails with code 21, yet the returned record's `file_system_name` is "NTFS",
not the empty string (the volume-information query succeeded and filled
it). -/
theorem c2_code21_counterexample :
    get_partitions envC2 =
      RunResult.succeeded
        [⟨'D', false, ['X'], 0, 0, ['N', 'T', 'F', 'S'],
          DriveType.DriveCDRom⟩] ∧
    (['N', 'T', 'F', 'S'] : List Char) ≠ [] := by
  constructor
  · decide
  · decide

/-- C2 (amended): a code-21 free-space failure for a letter yields a record
with `ready = false` and `size = free_space = 0`, the record is still
appended and the loop continues; `name`/`file_system_name` come from the
volume-information query (empty when it also fails with code 21, which is
the identical, idempotent policy; a code-21 volume failure after a
successful free-space query likewise only clears `ready` and the names). -/
theorem c2_code21_continue_amended (dt : Char → Option DriveType)
    (fs : Char → Except OsError (Nat × Nat × Nat))
    (vi : Char → Except OsError (List Char × List Char × Nat × Nat × Nat))
    (d : Char) (L2 : List Char) (τ : DriveType)
    (hdt : dt d = some τ) :
    (fs d = Except.error ⟨some 21⟩ →
      (∀ nm fsn serial maxlen flags,
        vi d = Except.ok (nm, fsn, serial, maxlen, flags) →
        partitions_loop dt fs vi (d :: L2) =
          run_cons ⟨d, false, nm, 0, 0, fsn, τ⟩
            (partitions_loop dt fs vi L2)) ∧
      (vi d = Except.error ⟨some 21⟩ →
        partitions_loop dt fs vi (d :: L2) =
          run_cons ⟨d, false, [], 0, 0, [], τ⟩
            (partitions_loop dt fs vi L2))) ∧
    (∀ avail t f, fs d = Except.ok (avail, t, f) →
      vi d = Except.error ⟨some 21⟩ →
      partitions_loop dt fs vi (d :: L2) =
        run_cons ⟨d, false, [], t, f, [], τ⟩
          (partitions_loop dt fs vi L2)) := by
  refine ⟨fun hfs => ⟨?_, ?_⟩, ?_⟩
  · intro nm fsn serial maxlen flags hvi
    simp [partitions_loop, hdt, hfs, free_space_step_21, hvi, volume_step_ok]
  · intro hvi
    simp [partitions_loop, hdt, hfs, free_space_step_21, hvi, volume_step_21]
  · intro avail t f hfs hvi
    simp [partitions_loop, hdt, hfs, free_space_step_ok, hvi, volume_step_21]

/-- Witness for the amended C2 at letter `D`. -/
theorem c2_code21_continue_amended_witness :
    partitions_loop dt2 fs21 viOkW ['D'] =
      run_cons
        ⟨'D', false, ['X'], 0, 0, ['N', 'T', 'F', 'S'], DriveType.DriveCDRom⟩
        (partitions_loop dt2 fs21 viOkW []) :=
  ((c2_code21_continue_amended dt2 fs21 viOkW 'D' [] DriveType.DriveCDRom
    rfl).1 rfl).1 ['X'] ['N', 'T', 'F', 'S'] 7 255 0 rfl

/-! ## C3 -/

/-- Counterexample to C3 as stated: on `envC3` the returned record has
`ready = false` but `size = 100 ≠ 0` (and `free_space = 40`): a not-ready
record keeps the capacity figures of a succeeding free-space query. -/
theorem c3_not_ready_counterexample :
    get_partitions envC3 =
      RunResult.succeeded
        [⟨'C', false, [], 100, 40, [], DriveType.DriveFixed⟩] ∧
    (100 : Nat) ≠ 0 := by
  constructor
  · decide
  · decide

/-- C3 (amended): in a successful `get_partitions` run, every record with
`ready = false` comes from a code-21 failure of at least one of its two
queries; a code-21 free-space failure forces `size = free_space = 0`, and a
code-21 volume-information failure forces `name = file_system_name = ""` —
fields of a succeeding query keep that query's values. -/
theorem c3_not_ready_fields_amended (env : NativeEnv)
    (ps : List WindowsPartition)
    (hps : get_partitions env = RunResult.succeeded ps) :
    ∀ p ∈ ps, p.ready = false →
      (get_disk_free_space env p.letter = Except.error ⟨some 21⟩ ∨
        get_volume_information env p.letter = Except.error ⟨some 21⟩) ∧
      (get_disk_free_space env p.letter = Except.error ⟨some 21⟩ →
        p.size = 0 ∧ p.free_space = 0) ∧
      (get_volume_information env p.letter = Except.error ⟨some 21⟩ →
        p.name = [] ∧ p.file_system_name = []) := by
  intro p hp hready
  have hnz : env.logicalDrives ≠ 0 := by
    intro hz
    rw [get_partitions_zero env hz] at hps
    exact RunResult.noConfusion hps
  rw [get_partitions_loop env hnz] at hps
  obtain ⟨τ, r1, r2, hτ, hdtt, hfss, hviss, hr⟩ :=
    loop_succeeded_mem _ _ _ _ ps hps p hp
  refine ⟨?_, ?_, ?_⟩
  · have hand : (r1 && r2) = false := hr.symm.trans hready
    cases r1 with
    | false => exact Or.inl (free_space_step_false hfss)
    | true =>
      have hr2 : r2 = false := by simpa using hand
      rw [hr2] at hviss
      exact Or.inr (volume_step_false hviss)
  · intro h21
    rw [h21, free_space_step_21] at hfss
    simp only [Except.ok.injEq, Prod.mk.injEq] at hfss
    exact ⟨hfss.2.1.symm, hfss.2.2.symm⟩
  · intro h21
    rw [h21, volume_step_21] at hviss
    simp only [Except.ok.injEq, Prod.mk.injEq] at hviss
    exact ⟨hviss.2.1.symm, hviss.2.2.symm⟩

/-- Witness for the amended C3 on `envC3`: the volume query failed with
code 21, and indeed the name fields are empty while the size fields keep
the free-space query's values. -/
theorem c3_not_ready_fields_amended_witness :
    (get_disk_free_space envC3 'C' = Except.error ⟨some 21⟩ ∨
      get_volume_information envC3 'C' = Except.error ⟨some 21⟩) ∧
    (get_disk_free_space envC3 'C' = Except.error ⟨some 21⟩ →
      (100 : Nat) = 0 ∧ (40 : Nat) = 0) ∧
    (get_volume_information envC3 'C' = Except.error ⟨some 21⟩ →
      ([] : List Char) = [] ∧ ([] : List Char) = []) :=
  c3_not_ready_fields_amended envC3
    [⟨'C', false, [], 100, 40, [], DriveType.DriveFixed⟩] (by decide)
    ⟨'C', false, [], 100, 40, [], DriveType.DriveFixed⟩
    (List.mem_singleton.mpr rfl) rfl

/-! ## C8 -/

/-- Counterexample to C8 as stated: the native call inside
`get_volume_information` observes volume-name capacity 64, not the 32 the
claim asserts (the spec-worded 32-capacity variant behaves differently on
the same environment). -/
theorem c8_buffer_capacity_counterexample :
    get_volume_information envSpy 'C' = Except.error ⟨some 64255⟩ ∧
    get_volume_information_spec envSpy 'C' = Except.error ⟨some 32255⟩ ∧
    get_volume_information envSpy 'C' ≠ get_volume_information_spec envSpy 'C' := by
  refine ⟨rfl, rfl, fun h => ?_⟩
  have h2 : (Except.error ⟨some 64255⟩ :
      Except OsError (List Char × List Char × Nat × Nat × Nat)) =
      Except.error ⟨some 32255⟩ := h
  injection h2 with h3
  exact absurd (congrArg OsError.rawCode h3) (by decide)

/-- C8 (amended): `get_volume_information` passes the native call two
fixed-capacity buffers of 64 u16 code units (volume name — the source
comment intends "32 characters, i.e. 64 bytes", but the unit passed is code
units, so the capacity is 64) and 255 u16 code units (file-system name):
its result depends only on the native answer at capacities (64, 255), and
the spy environment observes exactly those capacities. -/
theorem c8_buffer_capacities_amended (env env2 : NativeEnv) (letter : Char)
    (hagree : env.volumeInformation letter 64 255 =
      env2.volumeInformation letter 64 255) :
    get_volume_information env letter = get_volume_information env2 letter ∧
    get_volume_information envSpy letter = Except.error ⟨some 64255⟩ := by
  constructor
  · unfold get_volume_information
    rw [hagree]
  · rfl

/-- Witness for the amended C8: `envSpy` and `envSpy2` differ at capacity
32 but agree at capacity 64, and `get_volume_information` cannot tell them
apart. -/
theorem c8_buffer_capacities_amended_witness :
    get_volume_information envSpy 'C' = get_volume_information envSpy2 'C' ∧
    get_volume_information envSpy 'C' = Except.error ⟨some 64255⟩ :=
  c8_buffer_capacities_amended envSpy envSpy2 'C' rfl
